import Mathlib

/-!
Verification development for the two NAO physiotherapy scripts:
`nao-physiotherapy-assistant.py` (class `PhysiotherapyAssistant`) and
`st20307692_feedback.py`.

The shallow embedding below models, directly from the Python source:
  - the `WordRecognized` shared-memory slot as a list of values (strings or
    rationals), since the Python code reads a heterogeneous list;
  - the two timeout-bounded polling loops (the primary loop common to both
    scripts, and the secondary yes-or-no loop of the assistant script);
  - the acquisition routines `_listen` (assistant) and `listen` (feedback),
    including their context-keyed simulated-answer fallbacks;
  - the three rating normalizers of the feedback script;
  - the record-saving functions of both scripts.

Time is modeled in rationals: each polling iteration costs the fixed 0.2 s
sleep, and a successful recognition additionally costs the 0.5 s pause from
the source, matching the wall-clock checks of the Python loops.  Recognition
confidences are rationals (only their order against the 0.4 threshold
matters).  Python exceptions that the embedded code itself can raise (the
string concatenation in the `print` call, executed under Python 2 when the
slot holds a number in word position) are modeled with `Except`.  Randomness
is modeled by passing the value produced by `random.randint` (with its range
contract as a hypothesis where needed) and the index drawn by
`random.choice`.
-/

/-- Test whether the first list of characters is an initial segment of the
second; building block for the Python substring test. -/
def leadMatch : List Char → List Char → Bool
  | [], _ => true
  | _ :: _, [] => false
  | a :: as, b :: bs => a == b && leadMatch as bs

/-- Test whether the first list of characters occurs contiguously somewhere
inside the second. -/
def anyMatch (n : List Char) : List Char → Bool
  | [] => leadMatch n []
  | c :: cs => leadMatch n (c :: cs) || anyMatch n cs

/-- Python membership test `needle in hay` on strings. -/
def pyIn (needle hay : String) : Bool := anyMatch needle.toList hay.toList

/-- Python `str.isdigit`: the string is nonempty and all of its characters
are decimal digits. -/
def pyIsdigit (s : String) : Bool := !s.isEmpty && s.toList.all Char.isDigit

/-- Decimal value of a list of digit characters. -/
def digitsVal (l : List Char) : ℕ :=
  l.foldl (fun acc c => 10 * acc + (c.toNat - 48)) 0

/-- Python `int(...)` applied to an all-digit string (the only shape on which
the source calls it, guarded by `isdigit`). -/
def pyInt (s : String) : ℤ := (digitsVal s.data : ℤ)

/-- Python `str.lower` for the ASCII strings of this code base: lowercase
every character. -/
def pyLower (s : String) : String := ⟨s.data.map Char.toLower⟩

/-- Replace every non-overlapping occurrence of the nonempty pattern `pat`
by `rep`, left to right; the fuel argument (instantiated with the length of
the text) makes the recursion structural. -/
def replFuel (pat rep : List Char) : ℕ → List Char → List Char
  | 0, l => l
  | _ + 1, [] => []
  | f + 1, c :: cs =>
    if pat ≠ [] ∧ leadMatch pat (c :: cs) then
      rep ++ replFuel pat rep f (List.drop (pat.length - 1) cs)
    else c :: replFuel pat rep f cs

/-- Python `str.replace` (for a nonempty pattern, as used in the source with
a single space). -/
def pyReplace (s pat rep : String) : String :=
  ⟨replFuel pat.data rep.data s.data.length s.data⟩

/-- A value stored in the `WordRecognized` shared-memory slot.  NAOqi writes
the recognized word (a string) followed by its confidence (a number); the
embedding keeps both shapes so that the length and type guards of the source
are meaningful. -/
inductive SlotVal where
  | vstr (s : String)
  | vnum (q : ℚ)
deriving DecidableEq

/-- The recognition slot: the Python list returned by
`memory.getData("WordRecognized")`. -/
abbrev Slot := List SlotVal

/-- Python 2 comparison `v > 0.4` applied to a slot element: numbers compare
by value, while any string compares greater than any number (the CPython 2
cross-type ordering by type name). -/
def py2GtConf (v : SlotVal) (q : ℚ) : Bool :=
  match v with
  | .vnum c => decide (q < c)
  | .vstr _ => true

/-- The acceptance guard of both polling loops:
`word_recognized and len(word_recognized) >= 2 and word_recognized[1] > 0.4`. -/
def slotAccepted (s : Slot) : Bool :=
  !s.isEmpty && decide (2 ≤ s.length) &&
    (match s.get? 1 with
     | some v => py2GtConf v (2/5)
     | none => false)

/-- The value `word_recognized[0]` that the loop stores into `response` when
the guard accepts, and `none` when the sample is ignored. -/
def slotWord (s : Slot) : Option SlotVal :=
  if slotAccepted s then s.get? 0 else none

/-- Number of 0.2-second polling iterations that the loop condition
`while time.time() - start_time < timeout` admits. -/
def numPolls (timeout : ℚ) : ℕ := ⌈timeout * 5⌉₊

/-- The primary polling loop, written identically in `_listen` of the
assistant script and in `listen` of the feedback script: poll the slot, and
on an accepted sample run `print("Recognized: " + response)` (a Python 2
`TypeError` when the word position holds a number), keep looping while the
stored response is falsy (the empty string), and otherwise stop after the
0.5 s and 0.2 s sleeps.  Returns the response (if any) and the elapsed time
at which the loop exits.  The fuel argument is instantiated with `numPolls`,
which bounds the number of iterations. -/
def loopA (stream : ℕ → Slot) (timeout : ℚ) :
    ℕ → ℚ → ℕ → Except String (Option String) × ℚ
  | 0, t, _ => (.ok none, t)
  | fuel + 1, t, k =>
    if t < timeout then
      match slotWord (stream k) with
      | some (.vnum _) => (.error "TypeError", t)
      | some (.vstr w) =>
        if w = "" then loopA stream timeout fuel (t + 7/10) (k + 1)
        else (.ok (some w), t + 7/10)
      | none => loopA stream timeout fuel (t + 1/5) (k + 1)
    else (.ok none, t)

/-- Python truthiness of a slot value: the empty string and the number zero
are falsy. -/
def pyTruthy : SlotVal → Bool
  | .vstr s => s != ""
  | .vnum q => q != 0

/-- The secondary yes-or-no polling loop of `_listen` in the assistant
script: no `print`, no 0.5 s pause, and the loop keeps running while the
stored response is falsy. -/
def loopB (stream : ℕ → Slot) (timeout : ℚ) :
    ℕ → ℚ → ℕ → Option SlotVal × ℚ
  | 0, t, _ => (none, t)
  | fuel + 1, t, k =>
    if t < timeout then
      match slotWord (stream k) with
      | some v =>
        if pyTruthy v then (some v, t + 1/5)
        else loopB stream timeout fuel (t + 1/5) (k + 1)
      | none => loopB stream timeout fuel (t + 1/5) (k + 1)
    else (none, t)

/-- One recognition attempt as set up on the recognizer: the active
vocabulary passed to `asr.setVocabulary` and the timeout of the polling
loop. -/
structure Attempt where
  vocab : List String
  timeout : ℚ
deriving DecidableEq

/-- A recognition stream on which the recognizer keeps reporting the word
`u` with confidence 1. -/
def recog (u : String) : ℕ → Slot := fun _ => [.vstr u, .vnum 1]

/-- The empty recognition stream: the slot is always the empty list. -/
def emptyStream : ℕ → Slot := fun _ => []

/-- A well-formed recognition sample: if the slot has a first element, it is
the recognized word, a string (the shape NAOqi documents for the
`WordRecognized` event). -/
def SlotWF (s : Slot) : Prop := ∀ q : ℚ, s.get? 0 ≠ some (.vnum q)

/-- A recognition stream all of whose samples are well-formed. -/
def StreamWF (stream : ℕ → Slot) : Prop := ∀ k, SlotWF (stream k)

/-- A recognition stream in which no sample ever passes the acceptance
guard: the empty recognition stream of the specification. -/
def NoAccept (stream : ℕ → Slot) : Prop := ∀ k, slotWord (stream k) = none

namespace Feedback

/-- The default vocabulary built in `listen` of the feedback script when no
vocabulary is passed, including the `str(i)` entries appended for `i` in
`range(1, 11)`. -/
def defaultVocabulary : List String :=
  ["yes", "no", "maybe", "In detail",
   "good", "bad", "okay", "excellent", "poor", "fine",
   "helpful", "not helpful", "somewhat helpful",
   "better", "worse", "same", "much better", "slightly better",
   "comfortable", "uncomfortable", "painful", "painless",
   "professional", "friendly", "knowledgeable", "thorough",
   "satisfied", "dissatisfied", "neutral",
   "recommend", "would not recommend",
   "continue", "stop", "modify",
   "exercises", "massage", "stretching", "mobilization",
   "one", "two", "three", "four", "five", "six", "seven", "eight", "nine",
   "ten"] ++ (List.range 10).map (fun i => toString (i + 1))

/-- The `simulated_responses` dictionary of `listen` in the feedback
script. -/
def simulatedResponses : List (String × String) :=
  [("session_date", "Today\x27s session was good"),
   ("therapist_name", "John Smith"),
   ("treatment_helpful", "Yes, the treatment was very helpful"),
   ("pain_before", "My pain was about 7 out of 10 before treatment"),
   ("pain_after", "Now my pain is about 3 out of 10"),
   ("therapist_knowledge", "The therapist was very knowledgeable"),
   ("therapist_communication", "Communication was clear and helpful"),
   ("exercises", "The exercises were explained well"),
   ("facility", "The facility was clean and comfortable"),
   ("waiting_time", "I didn\x27t have to wait long"),
   ("overall", "Overall I\x27m very satisfied with the treatment"),
   ("continue", "Yes, I want to continue with this treatment plan"),
   ("recommend", "I would definitely recommend this to others"),
   ("improvements", "Maybe add more appointment time slots")]

/-- The chain mapping `current_function_context` to a simulated-response key
in `listen` of the feedback script. -/
def responseKey (ctx : String) : String :=
  if pyIn "session date" ctx then "session_date"
  else if pyIn "therapist name" ctx then "therapist_name"
  else if pyIn "helpful" ctx then "treatment_helpful"
  else if pyIn "pain before" ctx then "pain_before"
  else if pyIn "pain after" ctx then "pain_after"
  else if pyIn "knowledge" ctx then "therapist_knowledge"
  else if pyIn "communication" ctx then "therapist_communication"
  else if pyIn "exercises" ctx then "exercises"
  else if pyIn "facility" ctx then "facility"
  else if pyIn "waiting" ctx then "waiting_time"
  else if pyIn "overall" ctx then "overall"
  else if pyIn "continue" ctx then "continue"
  else if pyIn "recommend" ctx then "recommend"
  else if pyIn "improvements" ctx then "improvements"
  else "overall"

/-- The simulated answer `simulated_responses.get(response_key, "Yes")`
produced by `listen` of the feedback script when recognition fails. -/
def simulatedFor (ctx : String) : String :=
  (List.lookup (responseKey ctx) simulatedResponses).getD "Yes"

/-- The `listen` function of the feedback script: one polling attempt over
the given stream of slot samples, then the context-keyed simulated answer.
Returns the answer (or the propagated Python error), the elapsed polling
time, and the recognition attempts performed. -/
def listen (timeout : ℚ) (vocabulary : Option (List String))
    (stream : ℕ → Slot) (ctx : String) :
    Except String String × ℚ × List Attempt :=
  let vocab := vocabulary.getD defaultVocabulary
  match loopA stream timeout (numPolls timeout) 0 0 with
  | (.error e, t) => (.error e, t, [⟨vocab, timeout⟩])
  | (.ok (some w), t) => (.ok w, t, [⟨vocab, timeout⟩])
  | (.ok none, t) => (.ok (simulatedFor ctx), t, [⟨vocab, timeout⟩])

/-- The coarse-question vocabulary of `get_numeric_rating`. -/
def rangeVocabulary : List String :=
  ["low", "medium", "high", "very low", "very high"]

/-- The `number_vocabulary` list built by `get_numeric_rating`: the ten
number words plus `str(i)` for `i` in `range(min_value, max_value + 1)`. -/
def numberVocabulary (min_value max_value : ℤ) : List String :=
  ["one", "two", "three", "four", "five", "six", "seven", "eight", "nine",
   "ten"] ++ (List.range (max_value + 1 - min_value).toNat).map
    (fun j => toString (min_value + (j : ℤ)))

/-- The leading branch of `get_numeric_rating`:
`if response and response.isdigit()` with the in-range check; `none` means
the code falls through to the coarse question. -/
def numericParse (min_value max_value : ℤ) (response : String) : Option ℤ :=
  if response != "" && pyIsdigit response &&
      decide (min_value ≤ pyInt response) &&
      decide (pyInt response ≤ max_value) then
    some (pyInt response)
  else none

/-- The coarse low-medium-high ladder of `get_numeric_rating`, falling back
to the simulated `random.randint` value `rnd` when no keyword matches (or
the reply is falsy). -/
def numericCoarse (min_value max_value : ℤ) (range_response : String)
    (rnd : ℤ) : ℤ :=
  let r := pyLower range_response
  if range_response != "" && pyIn "very low" r then min_value
  else if range_response != "" && pyIn "low" r then
    min_value + (max_value - min_value).fdiv 4
  else if range_response != "" && pyIn "medium" r then
    min_value + (max_value - min_value).fdiv 2
  else if range_response != "" && pyIn "high" r then
    max_value - (max_value - min_value).fdiv 4
  else if range_response != "" && pyIn "very high" r then max_value
  else rnd

/-- The `get_numeric_rating` function of the feedback script.  The two
streams feed its two `listen` calls; `rnd` is the value produced by
`random.randint(min_value, max_value)` on the simulated-value path. -/
def get_numeric_rating (min_value max_value : ℤ) (s1 s2 : ℕ → Slot)
    (ctx : String) (rnd : ℤ) : Except String ℤ × List Attempt :=
  match listen 20 (some (numberVocabulary min_value max_value)) s1 ctx with
  | (.error e, _, a1) => (.error e, a1)
  | (.ok response, _, a1) =>
    match numericParse min_value max_value response with
    | some n => (.ok n, a1)
    | none =>
      match listen 8 (some rangeVocabulary) s2 ctx with
      | (.error e, _, a2) => (.error e, a1 ++ a2)
      | (.ok range_response, _, a2) =>
        (.ok (numericCoarse min_value max_value range_response rnd), a1 ++ a2)

/-- The `satisfaction_options` list used by the simulated-answer branch of
`get_satisfaction_rating`. -/
def satisfaction_options : List String :=
  ["dissatisfied", "neutral", "satisfied", "very_satisfied"]

/-- The `satisfaction_vocab` list of `get_satisfaction_rating`. -/
def satisfactionVocabulary : List String :=
  ["very dissatisfied", "dissatisfied", "neutral", "satisfied",
   "very satisfied", "very unhappy", "unhappy", "okay", "happy",
   "very happy"]

/-- The keyword ladder of `get_satisfaction_rating` applied to a truthy
response, and the `random.choice` among the four `satisfaction_options` when
the response is falsy (`choice` is the drawn index). -/
def satisfactionOf (response : String) (choice : ℕ) : String :=
  let r := pyLower response
  if response != "" then
    if pyIn "very dissatisfied" r || pyIn "very unhappy" r then
      "very_dissatisfied"
    else if pyIn "dissatisfied" r || pyIn "unhappy" r then "dissatisfied"
    else if pyIn "neutral" r || pyIn "okay" r then "neutral"
    else if pyIn "satisfied" r || pyIn "happy" r then
      (if pyIn "very" r then "very_satisfied" else "satisfied")
    else if pyIn "very satisfied" r || pyIn "very happy" r then
      "very_satisfied"
    else "neutral"
  else satisfaction_options.getD (choice % satisfaction_options.length)
    "neutral"

/-- The `get_satisfaction_rating` function of the feedback script; `choice`
is the index drawn by `random.choice` on the no-response path. -/
def get_satisfaction_rating (s1 : ℕ → Slot) (ctx : String) (choice : ℕ) :
    Except String String × List Attempt :=
  match listen 10 (some satisfactionVocabulary) s1 ctx with
  | (.error e, _, a1) => (.error e, a1)
  | (.ok response, _, a1) => (.ok (satisfactionOf response choice), a1)

/-- The `pain_vocabulary` list built by `get_pain_rating`: `str(i)` for `i`
in `range(0, 11)` plus the descriptive terms. -/
def painVocabulary : List String :=
  (List.range 11).map (fun i => toString i) ++
    ["no pain", "mild", "moderate", "severe", "worst pain"]

/-- The vocabulary of the descriptive second attempt of `get_pain_rating`. -/
def painDescVocabulary : List String :=
  ["none", "no pain", "mild", "moderate", "severe", "worst"]

/-- The first branch ladder of `get_pain_rating` over a truthy response:
an in-range digit string, or a descriptive keyword; `none` means the code
falls through to the descriptive second attempt. -/
def painFirstPhase (response : String) : Option ℤ :=
  let r := pyLower response
  if response != "" then
    if pyIsdigit response then
      (if (0 : ℤ) ≤ pyInt response ∧ pyInt response ≤ 10 then
        some (pyInt response) else none)
    else if pyIn "no pain" r then some 0
    else if pyIn "mild" r then some 2
    else if pyIn "moderate" r then some 5
    else if pyIn "severe" r then some 8
    else if pyIn "worst" r then some 10
    else none
  else none

/-- The descriptive ladder of `get_pain_rating` over the second reply,
falling back to the simulated `random.randint` value `rnd`. -/
def painDescPhase (description : String) (rnd : ℤ) : ℤ :=
  let d := pyLower description
  if description != "" && (pyIn "none" d || pyIn "no pain" d) then 0
  else if description != "" && pyIn "mild" d then 2
  else if description != "" && pyIn "moderate" d then 5
  else if description != "" && pyIn "severe" d then 8
  else if description != "" && pyIn "worst" d then 10
  else rnd

/-- The `get_pain_rating` function of the feedback script; `rnd` is the
value produced by `random.randint(0, 10)` on the simulated-value path. -/
def get_pain_rating (s1 s2 : ℕ → Slot) (ctx : String) (rnd : ℤ) :
    Except String ℤ × List Attempt :=
  match listen 10 (some painVocabulary) s1 ctx with
  | (.error e, _, a1) => (.error e, a1)
  | (.ok response, _, a1) =>
    match painFirstPhase response with
    | some p => (.ok p, a1)
    | none =>
      match listen 8 (some painDescVocabulary) s2 ctx with
      | (.error e, _, a2) => (.error e, a1 ++ a2)
      | (.ok description, _, a2) =>
        (.ok (painDescPhase description rnd), a1 ++ a2)

/-- The part of the in-memory feedback record that `save_feedback` reads or
writes: `current_feedback["session_info"].get("patient")` and the top-level
timestamp field set just before serializing. -/
structure FeedbackRecord where
  patient : Option String
  timestamp : String
deriving DecidableEq

/-- The `save_feedback` function: refuse (returning `False`, writing
nothing) when the patient field is falsy, and otherwise stamp the record and
write it to `patient_feedback/<safe_name>_feedback_<date>.json`.
`now_field` is the `strftime` value stored into the record and `now_file`
the one embedded in the filename. -/
def save_feedback (r : FeedbackRecord) (now_field now_file : String) :
    Bool × Option (String × FeedbackRecord) :=
  match r.patient with
  | none => (false, none)
  | some patient_name =>
    if patient_name = "" then (false, none)
    else
      let safe_name := pyReplace (pyLower patient_name) " " "_"
      let filename := "patient_feedback" ++ "/" ++ safe_name ++
        "_feedback_" ++ now_file ++ ".json"
      (true, some (filename, ⟨r.patient, now_field⟩))

end Feedback

namespace Assistant

/-- The default vocabulary built in `_listen` of the assistant script when no
vocabulary is passed.  The source has a missing comma after the string
Shoulder, so Python literal concatenation produces the single entry
Shouldergood; the `str(i)` entries for `i` in `range(1, 100)` are appended. -/
def defaultVocabulary : List String :=
  ["yes", "no", "maybe", "father", "Bob", "Walking", "Lifting", "Running",
   "Legs", "Knee", "Jack", "Knee and Shoulder", "Shouldergood",
   "bad", "okay", "fine",
   "pain", "hurt", "sore", "ache",
   "left", "right", "arm", "leg", "back", "neck", "shoulder", "knee", "hip",
   "daily", "weekly", "sometimes", "always", "never",
   "mild", "moderate", "severe", "extreme",
   "walk", "sit", "stand", "lift", "climb", "bend",
   "medication", "surgery", "injury", "accident",
   "doctor", "hospital", "therapy", "treatment",
   "better", "worse", "same", "improving", "worsening",
   "exercise", "stretch", "mobility", "strength",
   "morning", "afternoon", "evening", "night",
   "one", "two", "three", "four", "five", "six", "seven", "eight", "nine",
   "ten", "forty"] ++ (List.range 99).map (fun i => toString (i + 1))

/-- The `simulated_responses` dictionary of `_listen` in the assistant
script. -/
def simulatedResponses : List (String × String) :=
  [("name", "John Smith"),
   ("age", "45"),
   ("phone", "555-123-4567"),
   ("emergency", "Mary Smith, wife, 555-987-6543"),
   ("conditions", "Lower back pain for 3 months, mild hypertension"),
   ("medications", "Ibuprofen occasionally, blood pressure medication daily"),
   ("surgeries", "No previous surgeries"),
   ("allergies", "No known allergies"),
   ("pain", "Lower back, worse on the right side"),
   ("pain_scale", "6 out of 10 when standing for long periods"),
   ("worse", "Sitting for long periods and bending forward"),
   ("activities", "Difficulty gardening and carrying groceries"),
   ("previous", "No previous physiotherapy"),
   ("goals",
    "I want to be able to garden again without pain and return to my walking routine")]

/-- The chain mapping `current_function_context` to a simulated-response key
in `_listen` of the assistant script. -/
def responseKey (ctx : String) : String :=
  if pyIn "name" ctx then "name"
  else if pyIn "age" ctx then "age"
  else if pyIn "phone" ctx then "phone"
  else if pyIn "emergency" ctx then "emergency"
  else if pyIn "medical condition" ctx then "conditions"
  else if pyIn "medication" ctx then "medications"
  else if pyIn "surgeries" ctx then "surgeries"
  else if pyIn "allergies" ctx then "allergies"
  else if pyIn "pain" ctx && !(pyIn "scale" ctx) then "pain"
  else if pyIn "scale" ctx then "pain_scale"
  else if pyIn "worse" ctx then "worse"
  else if pyIn "activities" ctx then "activities"
  else if pyIn "previous" ctx then "previous"
  else if pyIn "goals" ctx then "goals"
  else "name"

/-- The simulated answer `simulated_responses.get(response_key, "Yes")`
produced by `_listen` when both recognition attempts fail. -/
def simulatedFor (ctx : String) : String :=
  (List.lookup (responseKey ctx) simulatedResponses).getD "Yes"

/-- The `_listen` method of the assistant script: a first polling attempt
over `stream1`; if it produces no truthy response, a second attempt with the
vocabulary narrowed to yes and no and a fixed 5-second timeout over
`stream2` (this loop stores `word_recognized[0]` without printing, so a
numeric word position is returned as-is rather than raising); finally the
context-keyed simulated answer.  Returns the response (or the propagated
Python error), the total elapsed polling time, and the recognition attempts
performed. -/
def listen (timeout : ℚ) (vocabulary : Option (List String))
    (stream1 stream2 : ℕ → Slot) (ctx : String) :
    Except String SlotVal × ℚ × List Attempt :=
  let vocab := vocabulary.getD defaultVocabulary
  match loopA stream1 timeout (numPolls timeout) 0 0 with
  | (.error e, t) => (.error e, t, [⟨vocab, timeout⟩])
  | (.ok (some w), t) => (.ok (.vstr w), t, [⟨vocab, timeout⟩])
  | (.ok none, t) =>
    match loopB stream2 5 (numPolls 5) 0 0 with
    | (some v, u) => (.ok v, t + u, [⟨vocab, timeout⟩, ⟨["yes", "no"], 5⟩])
    | (none, u) =>
      (.ok (.vstr (simulatedFor ctx)), t + u,
        [⟨vocab, timeout⟩, ⟨["yes", "no"], 5⟩])

/-- The part of the in-memory patient record that `save_patient_profile` and
`conclude_assessment` read or write:
`current_patient["personal_info"].get("name")` and the assessment-summary
field merged in by `conclude_assessment`. -/
structure PatientRecord where
  name : Option String
  assessment_summary : Option String
deriving DecidableEq

/-- The `save_patient_profile` method: refuse (returning `False`, writing
nothing) when the name field is falsy, and otherwise write the record to
`patient_profiles/<safe_name>_<date>.json`, where `now_file` is the
`datetime.datetime.now().strftime` value computed inside the call. -/
def save_patient_profile (p : PatientRecord) (now_file : String) :
    Bool × Option (String × PatientRecord) :=
  match p.name with
  | none => (false, none)
  | some name =>
    if name = "" then (false, none)
    else
      let safe_name := pyReplace (pyLower name) " " "_"
      let filename := "patient_profiles" ++ "/" ++ safe_name ++ "_" ++
        now_file ++ ".json"
      (true, some (filename, p))

/-- The `conclude_assessment` method, restricted to its persistence effect:
a first save, then (on success) the LLM-generated summary is merged into the
record and the profile is saved again.  `summary` stands for the value
returned by `generate_summary`; `now1` and `now2` are the two timestamp
strings computed by the two `save_patient_profile` calls.  Returns the list
of files written, in order. -/
def conclude_assessment (p : PatientRecord) (summary : String)
    (now1 now2 : String) : List (String × PatientRecord) :=
  match save_patient_profile p now1 with
  | (true, w1) =>
    let p2 : PatientRecord := ⟨p.name, some summary⟩
    match save_patient_profile p2 now2 with
    | (_, w2) => w1.toList ++ w2.toList
  | (false, w1) => w1.toList

end Assistant

theorem slotWord_eq_some (s : Slot) (v : SlotVal) (h : slotWord s = some v) :
    s.get? 0 = some v := by
  unfold slotWord at h
  split at h
  · exact h
  · simp at h

theorem loopA_wf_ok (stream : ℕ → Slot) (T : ℚ) (hs : StreamWF stream) :
    ∀ fuel t k, ∃ o, (loopA stream T fuel t k).1 = Except.ok o := by
  intro fuel
  induction fuel with
  | zero => intro t k; exact ⟨none, rfl⟩
  | succ n ih =>
    intro t k
    by_cases hT : t < T
    · cases hw : slotWord (stream k) with
      | none => simpa [loopA, hT, hw] using ih (t + 1/5) (k + 1)
      | some v =>
        cases v with
        | vnum q => exact absurd (slotWord_eq_some _ _ hw) (hs k q)
        | vstr w =>
          by_cases hw0 : w = ""
          · simpa [loopA, hT, hw, hw0] using ih (t + 7/10) (k + 1)
          · exact ⟨some w, by simp [loopA, hT, hw, hw0]⟩
    · exact ⟨none, by simp [loopA, hT]⟩

theorem loopB_wf (stream : ℕ → Slot) (T : ℚ) (hs : StreamWF stream) :
    ∀ fuel t k, (loopB stream T fuel t k).1 = none ∨
      ∃ w, (loopB stream T fuel t k).1 = some (.vstr w) := by
  intro fuel
  induction fuel with
  | zero => intro t k; exact Or.inl rfl
  | succ n ih =>
    intro t k
    by_cases hT : t < T
    · cases hw : slotWord (stream k) with
      | none => simpa [loopB, hT, hw] using ih (t + 1/5) (k + 1)
      | some v =>
        cases v with
        | vnum q => exact absurd (slotWord_eq_some _ _ hw) (hs k q)
        | vstr w =>
          by_cases hw0 : pyTruthy (.vstr w)
          · exact Or.inr ⟨w, by simp [loopB, hT, hw, hw0]⟩
          · simpa [loopB, hT, hw, hw0] using ih (t + 1/5) (k + 1)
    · exact Or.inl (by simp [loopB, hT])

theorem loopA_noaccept (stream : ℕ → Slot) (T : ℚ) (h : NoAccept stream) :
    ∀ fuel t k, (loopA stream T fuel t k).1 = Except.ok none ∧
      ((loopA stream T fuel t k).2 = t ∨ (loopA stream T fuel t k).2 < T + 1/5) := by
  intro fuel
  induction fuel with
  | zero => intro t k; exact ⟨rfl, Or.inl rfl⟩
  | succ n ih =>
    intro t k
    by_cases hT : t < T
    · have e : loopA stream T (n + 1) t k = loopA stream T n (t + 1/5) (k + 1) := by
        simp [loopA, hT, h k]
      rw [e]
      refine ⟨(ih _ _).1, ?_⟩
      rcases (ih (t + 1/5) (k + 1)).2 with h2 | h2
      · right; rw [h2]; linarith
      · right; exact h2
    · have e : loopA stream T (n + 1) t k = (.ok none, t) := by simp [loopA, hT]
      rw [e]
      exact ⟨rfl, Or.inl rfl⟩

theorem loopB_noaccept (stream : ℕ → Slot) (T : ℚ) (h : NoAccept stream) :
    ∀ fuel t k, (loopB stream T fuel t k).1 = none ∧
      ((loopB stream T fuel t k).2 = t ∨ (loopB stream T fuel t k).2 < T + 1/5) := by
  intro fuel
  induction fuel with
  | zero => intro t k; exact ⟨rfl, Or.inl rfl⟩
  | succ n ih =>
    intro t k
    by_cases hT : t < T
    · have e : loopB stream T (n + 1) t k = loopB stream T n (t + 1/5) (k + 1) := by
        simp [loopB, hT, h k]
      rw [e]
      refine ⟨(ih _ _).1, ?_⟩
      rcases (ih (t + 1/5) (k + 1)).2 with h2 | h2
      · right; rw [h2]; linarith
      · right; exact h2
    · have e : loopB stream T (n + 1) t k = (none, t) := by simp [loopB, hT]
      rw [e]
      exact ⟨rfl, Or.inl rfl⟩

theorem slotWord_recog (u : String) (k : ℕ) :
    slotWord (recog u k) = some (.vstr u) := by
  simp [recog, slotWord, slotAccepted, py2GtConf]
  norm_num

theorem loopA_recog (T : ℚ) (hT : 0 < T) (u : String) (hu : u ≠ "") :
    loopA (recog u) T (numPolls T) 0 0 = (.ok (some u), 7/10) := by
  have h5 : 0 < numPolls T := by
    unfold numPolls
    exact Nat.ceil_pos.mpr (by linarith)
  obtain ⟨n, hn⟩ := Nat.exists_eq_succ_of_ne_zero (Nat.pos_iff_ne_zero.mp h5)
  rw [hn]
  simp [loopA, hT, slotWord_recog, hu]

theorem Feedback.listen_recog (T : ℚ) (hT : 0 < T) (u : String) (hu : u ≠ "")
    (v : Option (List String)) (ctx : String) :
    Feedback.listen T v (recog u) ctx =
      (.ok u, 7/10, [⟨v.getD Feedback.defaultVocabulary, T⟩]) := by
  simp [Feedback.listen, loopA_recog T hT u hu]

theorem Feedback.listen_noaccept (T : ℚ) (v : Option (List String))
    (stream : ℕ → Slot) (ctx : String) (h : NoAccept stream) :
    (Feedback.listen T v stream ctx).1 = .ok (Feedback.simulatedFor ctx) ∧
    ((Feedback.listen T v stream ctx).2.1 = 0 ∨
      (Feedback.listen T v stream ctx).2.1 < T + 1/5) ∧
    (Feedback.listen T v stream ctx).2.2 =
      [⟨v.getD Feedback.defaultVocabulary, T⟩] := by
  obtain ⟨h1, h2⟩ := loopA_noaccept stream T h (numPolls T) 0 0
  rcases hE : loopA stream T (numPolls T) 0 0 with ⟨val, t⟩
  rw [hE] at h1 h2
  dsimp at h1 h2
  subst h1
  refine ⟨by simp [Feedback.listen, hE], ?_, by simp [Feedback.listen, hE]⟩
  simpa [Feedback.listen, hE] using h2

theorem Feedback.listen_wf_ok (T : ℚ) (v : Option (List String))
    (stream : ℕ → Slot) (ctx : String) (hs : StreamWF stream) :
    ∃ w t a, Feedback.listen T v stream ctx = (.ok w, t, a) := by
  obtain ⟨o, ho⟩ := loopA_wf_ok stream T hs (numPolls T) 0 0
  rcases hE : loopA stream T (numPolls T) 0 0 with ⟨val, t⟩
  rw [hE] at ho
  dsimp at ho
  subst ho
  cases o with
  | none =>
    exact ⟨Feedback.simulatedFor ctx, t, [⟨v.getD Feedback.defaultVocabulary, T⟩],
      by simp [Feedback.listen, hE]⟩
  | some w =>
    exact ⟨w, t, [⟨v.getD Feedback.defaultVocabulary, T⟩],
      by simp [Feedback.listen, hE]⟩

theorem Assistant.listen_wf_str (T : ℚ) (v : Option (List String))
    (s1 s2 : ℕ → Slot) (ctx : String) (h1 : StreamWF s1) (h2 : StreamWF s2) :
    ∃ w t a, Assistant.listen T v s1 s2 ctx = (.ok (.vstr w), t, a) := by
  obtain ⟨o, ho⟩ := loopA_wf_ok s1 T h1 (numPolls T) 0 0
  rcases hE : loopA s1 T (numPolls T) 0 0 with ⟨val, t⟩
  rw [hE] at ho
  dsimp at ho
  subst ho
  cases o with
  | some w =>
    exact ⟨w, t, [⟨v.getD Assistant.defaultVocabulary, T⟩],
      by simp [Assistant.listen, hE]⟩
  | none =>
    have hB := loopB_wf s2 5 h2 (numPolls 5) 0 0
    rcases hF : loopB s2 5 (numPolls 5) 0 0 with ⟨vb, u⟩
    rw [hF] at hB
    dsimp at hB
    rcases hB with hB | ⟨w, hB⟩
    · subst hB
      exact ⟨Assistant.simulatedFor ctx, t + u,
        [⟨v.getD Assistant.defaultVocabulary, T⟩, ⟨["yes", "no"], 5⟩],
        by simp [Assistant.listen, hE, hF]⟩
    · subst hB
      exact ⟨w, t + u,
        [⟨v.getD Assistant.defaultVocabulary, T⟩, ⟨["yes", "no"], 5⟩],
        by simp [Assistant.listen, hE, hF]⟩

theorem Assistant.listen_noaccept_sim (T : ℚ) (hT : 0 ≤ T)
    (v : Option (List String)) (s1 s2 : ℕ → Slot) (ctx : String)
    (h1 : NoAccept s1) (h2 : NoAccept s2) :
    (Assistant.listen T v s1 s2 ctx).1 =
      .ok (.vstr (Assistant.simulatedFor ctx)) ∧
    (Assistant.listen T v s1 s2 ctx).2.1 < T + 27/5 ∧
    (Assistant.listen T v s1 s2 ctx).2.2 =
      [⟨v.getD Assistant.defaultVocabulary, T⟩, ⟨["yes", "no"], 5⟩] := by
  obtain ⟨hA1, hA2⟩ := loopA_noaccept s1 T h1 (numPolls T) 0 0
  rcases hE : loopA s1 T (numPolls T) 0 0 with ⟨val, t⟩
  rw [hE] at hA1 hA2
  dsimp at hA1 hA2
  subst hA1
  obtain ⟨hB1, hB2⟩ := loopB_noaccept s2 5 h2 (numPolls 5) 0 0
  rcases hF : loopB s2 5 (numPolls 5) 0 0 with ⟨vb, u⟩
  rw [hF] at hB1 hB2
  dsimp at hB1 hB2
  subst hB1
  have ht : t < T + 1/5 := by
    rcases hA2 with h | h
    · rw [h]; linarith
    · exact h
  have hu : u < 26/5 := by
    rcases hB2 with h | h
    · rw [h]; norm_num
    · linarith
  refine ⟨by simp [Assistant.listen, hE, hF], ?_, by simp [Assistant.listen, hE, hF]⟩
  have : (Assistant.listen T v s1 s2 ctx).2.1 = t + u := by
    simp [Assistant.listen, hE, hF]
  rw [this]
  linarith

theorem strData_append (x y : String) : (x ++ y).data = x.data ++ y.data := rfl

theorem leadMatch_self_append (n y : List Char) : leadMatch n (n ++ y) = true := by
  induction n with
  | nil => rfl
  | cons a as ih => simp [leadMatch, ih]

theorem anyMatch_self_append (n y : List Char) : anyMatch n (n ++ y) = true := by
  cases n with
  | nil => cases y with
    | nil => rfl
    | cons c cs => rfl
  | cons a as =>
    have h := leadMatch_self_append (a :: as) y
    simp only [List.cons_append] at h ⊢
    simp [anyMatch, h]

theorem anyMatch_cons_of (n : List Char) (c : Char) (t : List Char)
    (h : anyMatch n t = true) : anyMatch n (c :: t) = true := by
  simp [anyMatch, h]

theorem anyMatch_append_of (n x t : List Char) (h : anyMatch n t = true) :
    anyMatch n (x ++ t) = true := by
  induction x with
  | nil => simpa using h
  | cons c cs ih => simpa using anyMatch_cons_of n c (cs ++ t) ih

theorem pyIn_of_data (a s : String) (u v : List Char)
    (h : s.data = u ++ (a.data ++ v)) : pyIn a s = true := by
  show anyMatch a.toList s.toList = true
  have hl : s.toList = u ++ (a.toList ++ v) := h
  rw [hl]
  exact anyMatch_append_of _ _ _ (anyMatch_self_append _ _)

/-- The possible values of the simulated-answer fallback of the feedback
script: the fourteen dictionary values plus the `Yes` default. -/
def fbSimValues : List String := Feedback.simulatedResponses.map Prod.snd ++ ["Yes"]

theorem lookup_getD_mem {α β : Type} [BEq α] (k : α) (d : β)
    (l : List (α × β)) :
    (List.lookup k l).getD d ∈ l.map Prod.snd ++ [d] := by
  induction l with
  | nil => simp
  | cons p ps ih =>
    obtain ⟨a, b⟩ := p
    by_cases h : (k == a) = true
    · simp [List.lookup, h]
    · simp only [List.lookup, h, List.map_cons, List.cons_append]
      exact List.mem_cons_of_mem _ ih

theorem Feedback.simulatedFor_mem (ctx : String) :
    Feedback.simulatedFor ctx ∈ fbSimValues := by
  unfold Feedback.simulatedFor fbSimValues
  exact lookup_getD_mem _ _ _

theorem fbSim_props : ∀ s ∈ fbSimValues,
    s ≠ "" ∧ pyIsdigit s = false ∧
    pyIn "no pain" (pyLower s) = false ∧ pyIn "mild" (pyLower s) = false ∧
    pyIn "moderate" (pyLower s) = false ∧ pyIn "severe" (pyLower s) = false ∧
    pyIn "worst" (pyLower s) = false ∧ pyIn "none" (pyLower s) = false ∧
    pyIn "very low" (pyLower s) = false ∧ pyIn "low" (pyLower s) = false ∧
    pyIn "medium" (pyLower s) = false ∧ pyIn "high" (pyLower s) = false ∧
    pyIn "very high" (pyLower s) = false := by decide

theorem Feedback.get_numeric_rating_ok (minv maxv : ℤ) (s1 s2 : ℕ → Slot)
    (ctx : String) (rnd : ℤ) (h1 : StreamWF s1) (h2 : StreamWF s2) :
    ∃ n, (Feedback.get_numeric_rating minv maxv s1 s2 ctx rnd).1 = .ok n := by
  obtain ⟨w1, t1, a1, hL1⟩ := Feedback.listen_wf_ok 20
    (some (Feedback.numberVocabulary minv maxv)) s1 ctx h1
  obtain ⟨w2, t2, a2, hL2⟩ := Feedback.listen_wf_ok 8
    (some Feedback.rangeVocabulary) s2 ctx h2
  unfold Feedback.get_numeric_rating
  rw [hL1, hL2]
  dsimp only
  cases numericParse minv maxv w1 <;> exact ⟨_, rfl⟩

set_option maxHeartbeats 1000000 in
theorem Feedback.get_pain_rating_ok (s1 s2 : ℕ → Slot) (ctx : String)
    (rnd : ℤ) (h1 : StreamWF s1) (h2 : StreamWF s2) :
    ∃ p, (Feedback.get_pain_rating s1 s2 ctx rnd).1 = .ok p := by
  obtain ⟨w1, t1, a1, hL1⟩ := Feedback.listen_wf_ok 10
    (some Feedback.painVocabulary) s1 ctx h1
  obtain ⟨w2, t2, a2, hL2⟩ := Feedback.listen_wf_ok 8
    (some Feedback.painDescVocabulary) s2 ctx h2
  unfold Feedback.get_pain_rating
  rw [hL1, hL2]
  dsimp only
  cases Feedback.painFirstPhase w1 <;> exact ⟨_, rfl⟩

theorem satisfaction_getD_mem (m : ℕ) :
    Feedback.satisfaction_options.getD (m % Feedback.satisfaction_options.length)
      "neutral" ∈
      ["very_dissatisfied", "dissatisfied", "neutral", "satisfied",
       "very_satisfied"] := by
  have hlen : Feedback.satisfaction_options.length = 4 := rfl
  rw [hlen]
  have h : m % 4 = 0 ∨ m % 4 = 1 ∨ m % 4 = 2 ∨ m % 4 = 3 := by omega
  rcases h with h | h | h | h <;> rw [h] <;> decide

theorem Feedback.satisfactionOf_mem (response : String) (choice : ℕ) :
    Feedback.satisfactionOf response choice ∈
      ["very_dissatisfied", "dissatisfied", "neutral", "satisfied",
       "very_satisfied"] := by
  unfold Feedback.satisfactionOf
  dsimp only
  split_ifs <;> first
    | decide
    | exact satisfaction_getD_mem choice

theorem Feedback.get_satisfaction_rating_mem (s1 : ℕ → Slot) (ctx : String)
    (choice : ℕ) (h1 : StreamWF s1) :
    ∃ v, (Feedback.get_satisfaction_rating s1 ctx choice).1 = .ok v ∧
      v ∈ ["very_dissatisfied", "dissatisfied", "neutral", "satisfied",
        "very_satisfied"] := by
  obtain ⟨w1, t1, a1, hL1⟩ := Feedback.listen_wf_ok 10
    (some Feedback.satisfactionVocabulary) s1 ctx h1
  unfold Feedback.get_satisfaction_rating
  rw [hL1]
  exact ⟨_, rfl, Feedback.satisfactionOf_mem w1 choice⟩

theorem streamWF_empty : StreamWF emptyStream := by
  intro k q h
  simp [emptyStream] at h

theorem noAccept_empty : NoAccept emptyStream := fun _ => rfl

theorem slotWord_low (w : String) (c : ℚ) (hc : c ≤ 2/5) :
    slotWord [.vstr w, .vnum c] = none := by
  simp [slotWord, slotAccepted, py2GtConf, not_lt.mpr hc]

theorem loopA_congr (s s' : ℕ → Slot) (T : ℚ)
    (h : ∀ j, slotWord (s j) = slotWord (s' j)) :
    ∀ fuel t k, loopA s T fuel t k = loopA s' T fuel t k := by
  intro fuel
  induction fuel with
  | zero => intro t k; rfl
  | succ n ih =>
    intro t k
    by_cases hT : t < T
    · cases hw : slotWord (s' k) with
      | none => simp [loopA, hT, h k, hw, ih]
      | some v => cases v <;> simp [loopA, hT, h k, hw, ih]
    · simp [loopA, hT]

theorem Feedback.listen_congr (T : ℚ) (v : Option (List String))
    (s s' : ℕ → Slot) (ctx : String)
    (h : ∀ j, slotWord (s j) = slotWord (s' j)) :
    Feedback.listen T v s ctx = Feedback.listen T v s' ctx := by
  unfold Feedback.listen
  rw [loopA_congr s s' T h]

theorem Feedback.listen_noaccept_eq (T : ℚ) (v : Option (List String))
    (stream : ℕ → Slot) (ctx : String) (h : NoAccept stream) :
    ∃ t, Feedback.listen T v stream ctx =
      (.ok (Feedback.simulatedFor ctx), t,
        [⟨v.getD Feedback.defaultVocabulary, T⟩]) := by
  obtain ⟨h1, _⟩ := loopA_noaccept stream T h (numPolls T) 0 0
  rcases hE : loopA stream T (numPolls T) 0 0 with ⟨val, t⟩
  rw [hE] at h1
  dsimp at h1
  subst h1
  exact ⟨t, by simp [Feedback.listen, hE]⟩

theorem fbSim_numericParse (minv maxv : ℤ) (ctx : String) :
    Feedback.numericParse minv maxv (Feedback.simulatedFor ctx) = none := by
  obtain ⟨-, hdig, -⟩ := fbSim_props _ (Feedback.simulatedFor_mem ctx)
  simp [Feedback.numericParse, hdig]

theorem fbSim_numericCoarse (minv maxv rnd : ℤ) (ctx : String) :
    Feedback.numericCoarse minv maxv (Feedback.simulatedFor ctx) rnd = rnd := by
  obtain ⟨-, -, -, -, -, -, -, -, hvl, hlo, hme, hhi, hvh⟩ :=
    fbSim_props _ (Feedback.simulatedFor_mem ctx)
  simp [Feedback.numericCoarse, hvl, hlo, hme, hhi, hvh]

theorem fbSim_painFirst (ctx : String) :
    Feedback.painFirstPhase (Feedback.simulatedFor ctx) = none := by
  obtain ⟨-, hdig, hnp, hmi, hmo, hse, hwo, -⟩ :=
    fbSim_props _ (Feedback.simulatedFor_mem ctx)
  simp [Feedback.painFirstPhase, hdig, hnp, hmi, hmo, hse, hwo]

theorem fbSim_painDesc (ctx : String) (rnd : ℤ) :
    Feedback.painDescPhase (Feedback.simulatedFor ctx) rnd = rnd := by
  obtain ⟨-, -, hnp, hmi, hmo, hse, hwo, hno, -⟩ :=
    fbSim_props _ (Feedback.simulatedFor_mem ctx)
  simp [Feedback.painDescPhase, hnp, hmi, hmo, hse, hwo, hno]

theorem Feedback.get_numeric_rating_noaccept (minv maxv rnd : ℤ)
    (ctx : String) (s1 s2 : ℕ → Slot) (h1 : NoAccept s1) (h2 : NoAccept s2) :
    (Feedback.get_numeric_rating minv maxv s1 s2 ctx rnd).1 = .ok rnd := by
  obtain ⟨t1, hL1⟩ := Feedback.listen_noaccept_eq 20
    (some (Feedback.numberVocabulary minv maxv)) s1 ctx h1
  obtain ⟨t2, hL2⟩ := Feedback.listen_noaccept_eq 8
    (some Feedback.rangeVocabulary) s2 ctx h2
  unfold Feedback.get_numeric_rating
  rw [hL1, hL2]
  dsimp only
  rw [fbSim_numericParse, fbSim_numericCoarse]

theorem Feedback.get_pain_rating_noaccept (rnd : ℤ) (ctx : String)
    (s1 s2 : ℕ → Slot) (h1 : NoAccept s1) (h2 : NoAccept s2) :
    (Feedback.get_pain_rating s1 s2 ctx rnd).1 = .ok rnd := by
  obtain ⟨t1, hL1⟩ := Feedback.listen_noaccept_eq 10
    (some Feedback.painVocabulary) s1 ctx h1
  obtain ⟨t2, hL2⟩ := Feedback.listen_noaccept_eq 8
    (some Feedback.painDescVocabulary) s2 ctx h2
  unfold Feedback.get_pain_rating
  rw [hL1, hL2]
  dsimp only
  rw [fbSim_painFirst, fbSim_painDesc]

theorem Feedback.get_satisfaction_rating_noaccept (ctx : String)
    (choice : ℕ) (s1 : ℕ → Slot) (h1 : NoAccept s1) :
    (Feedback.get_satisfaction_rating s1 ctx choice).1 =
      .ok (Feedback.satisfactionOf (Feedback.simulatedFor ctx) choice) := by
  obtain ⟨t1, hL1⟩ := Feedback.listen_noaccept_eq 10
    (some Feedback.satisfactionVocabulary) s1 ctx h1
  unfold Feedback.get_satisfaction_rating
  rw [hL1]

theorem Feedback.satisfactionOf_truthy (response : String)
    (h : response ≠ "") (c1 c2 : ℕ) :
    Feedback.satisfactionOf response c1 = Feedback.satisfactionOf response c2 := by
  unfold Feedback.satisfactionOf
  simp [h]

theorem Feedback.get_numeric_rating_recog_digit (minv maxv rnd : ℤ)
    (ctx : String) (d : String) (s2 : ℕ → Slot) (n : ℤ)
    (hd : Feedback.numericParse minv maxv d = some n) :
    (Feedback.get_numeric_rating minv maxv (recog d) s2 ctx rnd).1 = .ok n := by
  have hu : d ≠ "" := by
    intro h
    subst h
    simp [Feedback.numericParse] at hd
  unfold Feedback.get_numeric_rating
  rw [Feedback.listen_recog 20 (by norm_num) d hu]
  dsimp only
  rw [hd]

theorem Feedback.get_numeric_rating_recog_coarse (minv maxv rnd : ℤ)
    (ctx : String) (u r : String) (hu : u ≠ "") (hr : r ≠ "")
    (hnp : Feedback.numericParse minv maxv u = none) :
    Feedback.get_numeric_rating minv maxv (recog u) (recog r) ctx rnd =
      (.ok (Feedback.numericCoarse minv maxv r rnd),
       [⟨Feedback.numberVocabulary minv maxv, 20⟩,
        ⟨Feedback.rangeVocabulary, 8⟩]) := by
  unfold Feedback.get_numeric_rating
  rw [Feedback.listen_recog 20 (by norm_num) u hu,
    Feedback.listen_recog 8 (by norm_num) r hr]
  dsimp only
  rw [hnp]
  rfl

theorem Feedback.get_pain_rating_recog_first (ctx : String) (rnd : ℤ)
    (u : String) (s2 : ℕ → Slot) (hu : u ≠ "") (p : ℤ)
    (hp : Feedback.painFirstPhase u = some p) :
    (Feedback.get_pain_rating (recog u) s2 ctx rnd).1 = .ok p := by
  unfold Feedback.get_pain_rating
  rw [Feedback.listen_recog 10 (by norm_num) u hu]
  dsimp only
  rw [hp]

theorem Feedback.get_pain_rating_recog_desc (ctx : String) (rnd : ℤ)
    (u d : String) (hu : u ≠ "") (hd : d ≠ "")
    (h1 : Feedback.painFirstPhase u = none) :
    (Feedback.get_pain_rating (recog u) (recog d) ctx rnd).1 =
      .ok (Feedback.painDescPhase d rnd) := by
  unfold Feedback.get_pain_rating
  rw [Feedback.listen_recog 10 (by norm_num) u hu,
    Feedback.listen_recog 8 (by norm_num) d hd]
  dsimp only
  rw [h1]

theorem Feedback.get_satisfaction_rating_recog (ctx : String) (choice : ℕ)
    (u : String) (hu : u ≠ "") :
    (Feedback.get_satisfaction_rating (recog u) ctx choice).1 =
      .ok (Feedback.satisfactionOf u choice) := by
  unfold Feedback.get_satisfaction_rating
  rw [Feedback.listen_recog 10 (by norm_num) u hu]

theorem fdiv_ge_one_of_le (a : ℤ) (h : 4 ≤ a) : 1 ≤ a.fdiv 4 := by
  lift a to ℕ using (by linarith : (0 : ℤ) ≤ a)
  rw [show ((4 : ℤ)) = ((4 : ℕ) : ℤ) from rfl, ← Int.ofNat_fdiv]
  have h4 : 4 ≤ a := by exact_mod_cast h
  have : 1 ≤ a / 4 := (Nat.one_le_div_iff (by norm_num)).mpr h4
  exact_mod_cast this

theorem leadMatch_iff (n : List Char) : ∀ m : List Char,
    leadMatch n m = true ↔ ∃ v, m = n ++ v := by
  induction n with
  | nil => intro m; simp [leadMatch]
  | cons a as ih =>
    intro m
    cases m with
    | nil =>
      simp [leadMatch]
    | cons b bs =>
      simp only [leadMatch, Bool.and_eq_true, beq_iff_eq, ih bs,
        List.cons_append, List.cons.injEq]
      constructor
      · rintro ⟨rfl, v, rfl⟩
        exact ⟨v, rfl, rfl⟩
      · rintro ⟨v, rfl, rfl⟩
        exact ⟨rfl, v, rfl⟩

theorem anyMatch_iff (n : List Char) : ∀ h : List Char,
    anyMatch n h = true ↔ ∃ u v, h = u ++ (n ++ v) := by
  intro h
  induction h with
  | nil =>
    simp only [anyMatch, leadMatch_iff]
    constructor
    · rintro ⟨v, hv⟩
      exact ⟨[], v, by simpa using hv⟩
    · rintro ⟨u, v, huv⟩
      have h0 := List.append_eq_nil.mp huv.symm
      exact ⟨v, h0.2.symm⟩
  | cons c cs ih =>
    simp only [anyMatch, Bool.or_eq_true, leadMatch_iff, ih]
    constructor
    · rintro (⟨v, hv⟩ | ⟨u, v, huv⟩)
      · exact ⟨[], v, by simpa using hv⟩
      · exact ⟨c :: u, v, by simp [huv]⟩
    · rintro ⟨u, v, huv⟩
      cases u with
      | nil => exact Or.inl ⟨v, by simpa using huv⟩
      | cons x xs =>
        simp only [List.cons_append, List.cons.injEq] at huv
        exact Or.inr ⟨xs, v, huv.2⟩

theorem pyIn_trans {a b c : String} (h1 : pyIn a b = true)
    (h2 : pyIn b c = true) : pyIn a c = true := by
  unfold pyIn at *
  rw [anyMatch_iff] at h1 h2 ⊢
  obtain ⟨u1, v1, hb⟩ := h1
  obtain ⟨u2, v2, hc⟩ := h2
  refine ⟨u2 ++ u1, v1 ++ v2, ?_⟩
  have hb' : b.data = u1 ++ (a.data ++ v1) := hb
  have hc' : c.data = u2 ++ (b.data ++ v2) := hc
  show c.data = u2 ++ u1 ++ (a.data ++ (v1 ++ v2))
  rw [hc', hb']
  simp

theorem ne_empty_of_pyIn {a u : String} (ha : a ≠ "")
    (h : pyIn a u = true) : u ≠ "" := by
  intro he
  subst he
  unfold pyIn at h
  rw [anyMatch_iff] at h
  obtain ⟨x, v, hx⟩ := h
  have : ([] : List Char) = x ++ (a.toList ++ v) := hx
  have ha' : a.toList = [] := by
    rcases List.append_eq_nil.mp this.symm with ⟨-, h2⟩
    exact (List.append_eq_nil.mp h2).1
  apply ha
  cases a
  simpa [String.toList] using congrArg String.mk ha'

theorem numericCoarse_eval_verylow (minv maxv rnd : ℤ) :
    Feedback.numericCoarse minv maxv "very low" rnd = minv := by
  have e1 : pyIn "very low" (pyLower "very low") = true := by decide
  simp [Feedback.numericCoarse, e1]

theorem numericCoarse_eval_low (minv maxv rnd : ℤ) :
    Feedback.numericCoarse minv maxv "low" rnd =
      minv + (maxv - minv).fdiv 4 := by
  have e1 : pyIn "very low" (pyLower "low") = false := by decide
  have e2 : pyIn "low" (pyLower "low") = true := by decide
  simp [Feedback.numericCoarse, e1, e2]

theorem numericCoarse_eval_medium (minv maxv rnd : ℤ) :
    Feedback.numericCoarse minv maxv "medium" rnd =
      minv + (maxv - minv).fdiv 2 := by
  have e1 : pyIn "very low" (pyLower "medium") = false := by decide
  have e2 : pyIn "low" (pyLower "medium") = false := by decide
  have e3 : pyIn "medium" (pyLower "medium") = true := by decide
  simp [Feedback.numericCoarse, e1, e2, e3]

theorem numericCoarse_eval_high (minv maxv rnd : ℤ) :
    Feedback.numericCoarse minv maxv "high" rnd =
      maxv - (maxv - minv).fdiv 4 := by
  have e1 : pyIn "very low" (pyLower "high") = false := by decide
  have e2 : pyIn "low" (pyLower "high") = false := by decide
  have e3 : pyIn "medium" (pyLower "high") = false := by decide
  have e4 : pyIn "high" (pyLower "high") = true := by decide
  simp [Feedback.numericCoarse, e1, e2, e3, e4]

theorem numericCoarse_eval_veryhigh (minv maxv rnd : ℤ) :
    Feedback.numericCoarse minv maxv "very high" rnd =
      maxv - (maxv - minv).fdiv 4 := by
  have e1 : pyIn "very low" (pyLower "very high") = false := by decide
  have e2 : pyIn "low" (pyLower "very high") = false := by decide
  have e3 : pyIn "medium" (pyLower "very high") = false := by decide
  have e4 : pyIn "high" (pyLower "very high") = true := by decide
  simp [Feedback.numericCoarse, e1, e2, e3, e4]

deriving instance DecidableEq for Except

/-- C1: the speech-acquisition routines (`_listen` of the assistant script
and `listen` of the feedback script) and the three rating normalizers
`get_numeric_rating`, `get_pain_rating` and `get_satisfaction_rating` are
total: over every stream of well-formed recognition samples — including the
empty recognition stream, in which no utterance ever arrives — each returns
a value through `Except.ok` and never propagates an error to its caller. -/
theorem C1_speech_and_normalizers_total (T : ℚ) (v1 v2 : Option (List String))
    (s1 s2 s3 s4 : ℕ → Slot) (ctx : String) (minv maxv rnd rnd2 : ℤ)
    (choice : ℕ) (h1 : StreamWF s1) (h2 : StreamWF s2) (h3 : StreamWF s3)
    (h4 : StreamWF s4) :
    (∃ w t a, Assistant.listen T v1 s1 s2 ctx = (.ok (.vstr w), t, a)) ∧
    (∃ w t a, Feedback.listen T v2 s3 ctx = (.ok w, t, a)) ∧
    (∃ n, (Feedback.get_numeric_rating minv maxv s3 s4 ctx rnd).1 = .ok n) ∧
    (∃ p, (Feedback.get_pain_rating s3 s4 ctx rnd2).1 = .ok p) ∧
    (∃ v, (Feedback.get_satisfaction_rating s3 ctx choice).1 = .ok v) := by
  refine ⟨Assistant.listen_wf_str T v1 s1 s2 ctx h1 h2,
    Feedback.listen_wf_ok T v2 s3 ctx h3,
    Feedback.get_numeric_rating_ok minv maxv s3 s4 ctx rnd h3 h4,
    Feedback.get_pain_rating_ok s3 s4 ctx rnd2 h3 h4, ?_⟩
  obtain ⟨v, hv, -⟩ := Feedback.get_satisfaction_rating_mem s3 ctx choice h3
  exact ⟨v, hv⟩

/-- Witness for C1 at a concrete input: the empty recognition stream. -/
theorem C1_speech_and_normalizers_total_witness :
    (∃ w t a, Assistant.listen 8 none emptyStream emptyStream "name" =
      (.ok (.vstr w), t, a)) ∧
    (∃ w t a, Feedback.listen 8 none emptyStream "greeting" = (.ok w, t, a)) ∧
    (∃ n, (Feedback.get_numeric_rating 1 10 emptyStream emptyStream
      "greeting" 5).1 = .ok n) ∧
    (∃ p, (Feedback.get_pain_rating emptyStream emptyStream
      "greeting" 5).1 = .ok p) ∧
    (∃ v, (Feedback.get_satisfaction_rating emptyStream "greeting" 0).1 =
      .ok v) :=
  C1_speech_and_normalizers_total 8 none none emptyStream emptyStream
    emptyStream emptyStream "greeting" 1 10 5 5 0 streamWF_empty
    streamWF_empty streamWF_empty streamWF_empty

unseal Rat.add Rat.mul Rat.inv in
/-- C2 counterexample: with timeout T = 0.1 s and the empty recognition
stream, `_listen` of the assistant script exits its two polling loops after
5.2 s of modeled polling time, exceeding T + 5 = 5.1 s.  The claimed bound
T plus the 5-second retry window fails whenever T is not a multiple of the
0.2 s polling interval. -/
theorem C2_timeout_bound_cex :
    (Assistant.listen (1/10) (some ["yes"]) emptyStream emptyStream
      "name").2.1 = 26/5 ∧
    ¬((Assistant.listen (1/10) (some ["yes"]) emptyStream emptyStream
      "name").2.1 ≤ 1/10 + 5) := by
  constructor <;> decide

/-- C2 amended: for every timeout T with 0 ≤ T and every empty recognition
stream, the acquisition routines terminate and never raise, returning the
simulated answer; the assistant routine returns within T + 5 + 2/5 — the
claimed bound of T plus the 5-second yes-or-no retry, plus at most one 0.2 s
polling interval of overshoot per loop — and the feedback routine, which has
no retry, returns within T + 1/5. -/
theorem C2_timeout_bound_amended (T : ℚ) (hT : 0 ≤ T)
    (v1 v2 : Option (List String)) (s1 s2 s3 : ℕ → Slot) (ctx : String)
    (h1 : NoAccept s1) (h2 : NoAccept s2) (h3 : NoAccept s3) :
    ((Assistant.listen T v1 s1 s2 ctx).1 =
        .ok (.vstr (Assistant.simulatedFor ctx)) ∧
      (Assistant.listen T v1 s1 s2 ctx).2.1 < T + 5 + 2/5) ∧
    ((Feedback.listen T v2 s3 ctx).1 = .ok (Feedback.simulatedFor ctx) ∧
      (Feedback.listen T v2 s3 ctx).2.1 < T + 1/5) := by
  obtain ⟨ha1, ha2, -⟩ := Assistant.listen_noaccept_sim T hT v1 s1 s2 ctx h1 h2
  obtain ⟨hf1, hf2, -⟩ := Feedback.listen_noaccept T v2 s3 ctx h3
  refine ⟨⟨ha1, by linarith⟩, hf1, ?_⟩
  rcases hf2 with h | h
  · rw [h]; linarith
  · exact h

/-- Witness for C2 amended at a concrete timeout and the empty stream. -/
theorem C2_timeout_bound_amended_witness :
    ((Assistant.listen 10 none emptyStream emptyStream "name").1 =
        .ok (.vstr (Assistant.simulatedFor "name")) ∧
      (Assistant.listen 10 none emptyStream emptyStream "name").2.1 <
        10 + 5 + 2/5) ∧
    ((Feedback.listen 10 none emptyStream "name").1 =
        .ok (Feedback.simulatedFor "name") ∧
      (Feedback.listen 10 none emptyStream "name").2.1 < 10 + 1/5) :=
  C2_timeout_bound_amended 10 (by norm_num) none none emptyStream emptyStream
    emptyStream "name" noAccept_empty noAccept_empty noAccept_empty

unseal Rat.add Rat.mul Rat.inv in
/-- C3 counterexample: in the feedback script, a `listen` call whose polling
attempt finds no word performs no second, narrowed attempt at all — the
attempt trace has a single entry carrying the original vocabulary, no
yes-no attempt occurs, and the routine falls directly back to the simulated
answer; this refutes the claim that every acquisition call in both scripts
retries with the vocabulary narrowed to yes and no. -/
theorem C3_yes_no_retry_cex :
    (Feedback.listen 8 (some ["today", "yesterday"]) emptyStream
      "greeting").2.2 = [⟨["today", "yesterday"], 8⟩] ∧
    Attempt.mk ["yes", "no"] 5 ∉
      (Feedback.listen 8 (some ["today", "yesterday"]) emptyStream
        "greeting").2.2 ∧
    (Feedback.listen 8 (some ["today", "yesterday"]) emptyStream
      "greeting").1 = .ok (Feedback.simulatedFor "greeting") := by
  refine ⟨by decide, by decide, by decide⟩

/-- C3 amended: the narrowing retry is a property of the assistant script
only.  Whenever the first polling attempt of `_listen` stores no truthy
word, `_listen` performs exactly one additional attempt with the vocabulary
narrowed to yes and no and a fixed 5-second timeout, and falls back to the
context-keyed simulated answer only if that attempt also fails; the
feedback script's `listen` performs a single attempt and goes straight to
the simulated answer. -/
theorem C3_yes_no_retry_amended (T : ℚ) (v1 v2 : Option (List String))
    (s1 s2 s3 : ℕ → Slot) (ctx : String)
    (hfail : (loopA s1 T (numPolls T) 0 0).1 = .ok none)
    (h3 : NoAccept s3) :
    (Assistant.listen T v1 s1 s2 ctx).2.2 =
      [⟨v1.getD Assistant.defaultVocabulary, T⟩, ⟨["yes", "no"], 5⟩] ∧
    ((loopB s2 5 (numPolls 5) 0 0).1 = none →
      (Assistant.listen T v1 s1 s2 ctx).1 =
        .ok (.vstr (Assistant.simulatedFor ctx))) ∧
    (Feedback.listen T v2 s3 ctx).2.2 =
      [⟨v2.getD Feedback.defaultVocabulary, T⟩] := by
  rcases hE : loopA s1 T (numPolls T) 0 0 with ⟨val, t⟩
  rw [hE] at hfail
  dsimp at hfail
  subst hfail
  obtain ⟨-, -, hatt⟩ := Feedback.listen_noaccept T v2 s3 ctx h3
  refine ⟨?_, ?_, hatt⟩
  · rcases hF : loopB s2 5 (numPolls 5) 0 0 with ⟨vb, u⟩
    cases vb <;> simp [Assistant.listen, hE, hF]
  · intro hB
    rcases hF : loopB s2 5 (numPolls 5) 0 0 with ⟨vb, u⟩
    rw [hF] at hB
    dsimp at hB
    subst hB
    simp [Assistant.listen, hE, hF]

/-- Witness for C3 amended at the empty streams. -/
theorem C3_yes_no_retry_amended_witness :
    (Assistant.listen 8 none emptyStream emptyStream "name").2.2 =
      [⟨(none : Option (List String)).getD Assistant.defaultVocabulary, 8⟩,
       ⟨["yes", "no"], 5⟩] ∧
    ((loopB emptyStream 5 (numPolls 5) 0 0).1 = none →
      (Assistant.listen 8 none emptyStream emptyStream "name").1 =
        .ok (.vstr (Assistant.simulatedFor "name"))) ∧
    (Feedback.listen 8 (some ["a"]) emptyStream "name").2.2 =
      [⟨(some ["a"]).getD Feedback.defaultVocabulary, 8⟩] :=
  C3_yes_no_retry_amended 8 none (some ["a"]) emptyStream emptyStream
    emptyStream "name"
    ((loopA_noaccept emptyStream 8 noAccept_empty (numPolls 8) 0 0).1)
    noAccept_empty

theorem slotAccepted_pair (w : String) (c : ℚ) (rest : List SlotVal) :
    slotAccepted (.vstr w :: .vnum c :: rest) = decide ((2 : ℚ)/5 < c) := by
  simp [slotAccepted, py2GtConf, Nat.le_add_left]

/-- C4: a recognition-slot sample of the word-then-confidence shape is
accepted as the response exactly when its confidence strictly exceeds the
0.4 threshold; the empty slot and one-element slots are never accepted;
every accepted slot is non-empty with at least two elements; and an
at-or-below-threshold sample is ignored rather than treated as an error —
the acquisition routine behaves on such a stream exactly as on the empty
recognition stream. -/
theorem C4_sample_acceptance :
    (∀ (w : String) (c : ℚ) (rest : List SlotVal),
      slotWord (.vstr w :: .vnum c :: rest) = some (.vstr w) ↔ (2 : ℚ)/5 < c) ∧
    slotWord [] = none ∧
    (∀ x : SlotVal, slotWord [x] = none) ∧
    (∀ sl : Slot, slotAccepted sl = true → sl ≠ [] ∧ 2 ≤ sl.length) ∧
    (∀ (w : String) (c : ℚ) (T : ℚ) (v : Option (List String)) (ctx : String),
      c ≤ 2/5 →
      Feedback.listen T v (fun _ => [.vstr w, .vnum c]) ctx =
        Feedback.listen T v emptyStream ctx) := by
  refine ⟨?_, rfl, fun x => rfl, ?_, ?_⟩
  · intro w c rest
    unfold slotWord
    rw [slotAccepted_pair]
    by_cases hc : (2 : ℚ)/5 < c <;> simp [hc]
  · intro sl h
    unfold slotAccepted at h
    simp only [Bool.and_eq_true, decide_eq_true_eq] at h
    refine ⟨?_, h.1.2⟩
    intro he
    subst he
    simp at h
  · intro w c T v ctx hc
    apply Feedback.listen_congr
    intro j
    rw [slotWord_low w c hc]
    rfl

/-- Witness for C4 at concrete samples and a concrete low-confidence
stream. -/
theorem C4_sample_acceptance_witness :
    (slotWord [.vstr "yes", .vnum (1/2)] = some (.vstr "yes") ↔
      (2 : ℚ)/5 < 1/2) ∧
    ([SlotVal.vstr "yes", .vnum 1] ≠ [] ∧
      2 ≤ ([SlotVal.vstr "yes", .vnum 1] : Slot).length) ∧
    Feedback.listen 8 (some ["yes"]) (fun _ => [.vstr "yes", .vnum (1/5)])
        "x" = Feedback.listen 8 (some ["yes"]) emptyStream "x" :=
  ⟨C4_sample_acceptance.1 "yes" (1/2) [],
   C4_sample_acceptance.2.2.2.1 [.vstr "yes", .vnum 1] (by norm_num
     [slotAccepted, py2GtConf]),
   C4_sample_acceptance.2.2.2.2 "yes" (1/5) 8 (some ["yes"]) "x"
     (by norm_num)⟩

unseal Rat.add Rat.mul Rat.inv in
/-- C5 counterexample: `get_numeric_rating` does not accept the exact
numeric-word utterance seven.  With bounds 1 and 10, the recognized word
seven is not a digit string, so the routine falls through to the coarse
question; a recognized coarse reply low then yields 1 + (10 - 1) // 4 = 3,
not the parsed integer 7 that the claim requires for numeric-word
utterances. -/
theorem C5_numeric_word_cex :
    (Feedback.get_numeric_rating 1 10 (recog "seven") (recog "low")
      "x" 9).1 = .ok 3 ∧ (3 : ℤ) ≠ 7 := by
  constructor <;> decide

/-- C5 amended: only digit utterances are parsed — for every digit utterance
within bounds the parsed integer is returned; every non-digit utterance
(numeric words included) falls through to the coarse question, a second
attempt with the low-medium-high vocabulary and an 8-second timeout, whose
recognized reply is bucketed into the five-element set containing the
minimum, the quarter points, the midpoint and the maximum; and with no
recognition at all the routine returns the simulated `random.randint`
value, in range by the randint contract. -/
theorem C5_numeric_rating_amended (minv maxv rnd : ℤ) (ctx : String)
    (d u r : String) (hd : pyIsdigit d = true) (hdl : minv ≤ pyInt d)
    (hdu : pyInt d ≤ maxv) (hu : u ≠ "") (hund : pyIsdigit u = false)
    (hr : r ∈ Feedback.rangeVocabulary) (hrl : minv ≤ rnd)
    (hru : rnd ≤ maxv) :
    ((Feedback.get_numeric_rating minv maxv (recog d) (recog r) ctx rnd).1 =
      .ok (pyInt d)) ∧
    (Feedback.get_numeric_rating minv maxv (recog u) (recog r) ctx rnd =
      (.ok (Feedback.numericCoarse minv maxv r rnd),
       [⟨Feedback.numberVocabulary minv maxv, 20⟩,
        ⟨Feedback.rangeVocabulary, 8⟩]) ∧
      Feedback.numericCoarse minv maxv r rnd ∈
        [minv, minv + (maxv - minv).fdiv 4, minv + (maxv - minv).fdiv 2,
         maxv - (maxv - minv).fdiv 4, maxv]) ∧
    ((Feedback.get_numeric_rating minv maxv emptyStream emptyStream ctx
        rnd).1 = .ok rnd ∧ minv ≤ rnd ∧ rnd ≤ maxv) := by
  have hdne : d ≠ "" := by
    intro h
    subst h
    exact absurd hd (by decide)
  have hrne : r ≠ "" := by
    fin_cases hr <;> decide
  have hnpd : Feedback.numericParse minv maxv d = some (pyInt d) := by
    simp [Feedback.numericParse, hd, hdl, hdu, hdne]
  have hnpu : Feedback.numericParse minv maxv u = none := by
    simp [Feedback.numericParse, hund]
  refine ⟨Feedback.get_numeric_rating_recog_digit minv maxv rnd ctx d _ _ hnpd,
    ⟨Feedback.get_numeric_rating_recog_coarse minv maxv rnd ctx u r hu hrne
      hnpu, ?_⟩,
    Feedback.get_numeric_rating_noaccept minv maxv rnd ctx _ _ noAccept_empty
      noAccept_empty, hrl, hru⟩
  fin_cases hr
  · rw [numericCoarse_eval_low]
    simp
  · rw [numericCoarse_eval_medium]
    simp
  · rw [numericCoarse_eval_high]
    simp
  · rw [numericCoarse_eval_verylow]
    simp
  · rw [numericCoarse_eval_veryhigh]
    simp

/-- Witness for C5 amended at concrete utterances. -/
theorem C5_numeric_rating_amended_witness :
    ((Feedback.get_numeric_rating 1 10 (recog "7") (recog "medium")
      "x" 4).1 = .ok (pyInt "7")) ∧
    (Feedback.get_numeric_rating 1 10 (recog "hello") (recog "medium")
      "x" 4 =
      (.ok (Feedback.numericCoarse 1 10 "medium" 4),
       [⟨Feedback.numberVocabulary 1 10, 20⟩,
        ⟨Feedback.rangeVocabulary, 8⟩]) ∧
      Feedback.numericCoarse 1 10 "medium" 4 ∈
        [1, 1 + ((10 : ℤ) - 1).fdiv 4, 1 + ((10 : ℤ) - 1).fdiv 2,
         10 - ((10 : ℤ) - 1).fdiv 4, 10]) ∧
    ((Feedback.get_numeric_rating 1 10 emptyStream emptyStream "x" 4).1 =
      .ok 4 ∧ (1 : ℤ) ≤ 4 ∧ (4 : ℤ) ≤ 10) :=
  C5_numeric_rating_amended 1 10 4 "x" "7" "hello" "medium" (by decide)
    (by decide) (by decide) (by decide) (by decide) (by decide) (by decide)
    (by decide)

/-- C6: `get_pain_rating` parses the digit utterance 7 to the rating 7; maps
the descriptive utterances by the documented buckets — no pain to 0, mild to
2, moderate to 5, severe to 8, worst to 10 (so severe yields 8), with none
mapped to 0 on the descriptive retry; and with no utterance at all returns
the simulated `random.randint` value, which lies in the 0 to 10 range by the
randint contract. -/
theorem C6_pain_rating (ctx : String) (rnd : ℤ) (s2 : ℕ → Slot)
    (h0 : 0 ≤ rnd) (h10 : rnd ≤ 10) :
    ((Feedback.get_pain_rating (recog "7") s2 ctx rnd).1 = .ok 7) ∧
    ((Feedback.get_pain_rating (recog "no pain") s2 ctx rnd).1 = .ok 0) ∧
    ((Feedback.get_pain_rating (recog "mild") s2 ctx rnd).1 = .ok 2) ∧
    ((Feedback.get_pain_rating (recog "moderate") s2 ctx rnd).1 = .ok 5) ∧
    ((Feedback.get_pain_rating (recog "severe") s2 ctx rnd).1 = .ok 8) ∧
    ((Feedback.get_pain_rating (recog "worst pain") s2 ctx rnd).1 =
      .ok 10) ∧
    ((Feedback.get_pain_rating (recog "none") (recog "none") ctx rnd).1 =
      .ok 0) ∧
    ((Feedback.get_pain_rating emptyStream emptyStream ctx rnd).1 =
      .ok rnd ∧ 0 ≤ rnd ∧ rnd ≤ 10) := by
  have hnone : Feedback.painDescPhase "none" rnd = 0 := by
    have e1 : pyIn "none" (pyLower "none") = true := by decide
    simp [Feedback.painDescPhase, e1]
  refine ⟨
    Feedback.get_pain_rating_recog_first ctx rnd "7" s2 (by decide) 7
      (by decide),
    Feedback.get_pain_rating_recog_first ctx rnd "no pain" s2 (by decide) 0
      (by decide),
    Feedback.get_pain_rating_recog_first ctx rnd "mild" s2 (by decide) 2
      (by decide),
    Feedback.get_pain_rating_recog_first ctx rnd "moderate" s2 (by decide) 5
      (by decide),
    Feedback.get_pain_rating_recog_first ctx rnd "severe" s2 (by decide) 8
      (by decide),
    Feedback.get_pain_rating_recog_first ctx rnd "worst pain" s2 (by decide)
      10 (by decide),
    ?_,
    Feedback.get_pain_rating_noaccept rnd ctx _ _ noAccept_empty
      noAccept_empty, h0, h10⟩
  rw [Feedback.get_pain_rating_recog_desc ctx rnd "none" "none" (by decide)
    (by decide) (by decide), hnone]

/-- Witness for C6 at a concrete context and random value. -/
theorem C6_pain_rating_witness :
    ((Feedback.get_pain_rating (recog "7") emptyStream "x" 5).1 = .ok 7) ∧
    ((Feedback.get_pain_rating (recog "no pain") emptyStream "x" 5).1 =
      .ok 0) ∧
    ((Feedback.get_pain_rating (recog "mild") emptyStream "x" 5).1 =
      .ok 2) ∧
    ((Feedback.get_pain_rating (recog "moderate") emptyStream "x" 5).1 =
      .ok 5) ∧
    ((Feedback.get_pain_rating (recog "severe") emptyStream "x" 5).1 =
      .ok 8) ∧
    ((Feedback.get_pain_rating (recog "worst pain") emptyStream "x" 5).1 =
      .ok 10) ∧
    ((Feedback.get_pain_rating (recog "none") (recog "none") "x" 5).1 =
      .ok 0) ∧
    ((Feedback.get_pain_rating emptyStream emptyStream "x" 5).1 = .ok 5 ∧
      (0 : ℤ) ≤ 5 ∧ (5 : ℤ) ≤ 10) :=
  C6_pain_rating "x" 5 emptyStream (by decide) (by decide)

unseal Rat.add Rat.mul Rat.inv in
/-- C7 counterexample: the recognized utterance unhappy-very-happy contains
the phrase very happy, yet `get_satisfaction_rating` returns dissatisfied,
because the containment check for unhappy fires first; so the claim that
every utterance containing very happy maps to very_satisfied is false. -/
theorem C7_satisfaction_cex :
    pyIn "very happy" (pyLower "unhappy very happy") = true ∧
    (Feedback.get_satisfaction_rating (recog "unhappy very happy")
      "x" 0).1 = .ok "dissatisfied" ∧
    "dissatisfied" ≠ "very_satisfied" := by
  refine ⟨by decide, by decide, by decide⟩

/-- C7 amended: an utterance containing very happy maps to very_satisfied
provided it contains none of the earlier-checked keywords (very
dissatisfied, very unhappy, dissatisfied, unhappy, neutral, okay); an
utterance containing unhappy but not very maps to dissatisfied; a recognized
utterance containing none of the ladder keywords maps to neutral; and with
no utterance at all the routine feeds the context-keyed simulated sentence
through the same ladder — the result is one of the five satisfaction levels
and does not depend on the random choice index, the four-way random choice
being unreachable because the acquisition routine never returns a falsy
response. -/
theorem C7_satisfaction_amended (ctx : String) (u : String)
    (choice c1 c2 : ℕ) :
    (pyIn "very happy" (pyLower u) = true →
      pyIn "very dissatisfied" (pyLower u) = false →
      pyIn "very unhappy" (pyLower u) = false →
      pyIn "dissatisfied" (pyLower u) = false →
      pyIn "unhappy" (pyLower u) = false →
      pyIn "neutral" (pyLower u) = false →
      pyIn "okay" (pyLower u) = false →
      (Feedback.get_satisfaction_rating (recog u) ctx choice).1 =
        .ok "very_satisfied") ∧
    (pyIn "unhappy" (pyLower u) = true → pyIn "very" (pyLower u) = false →
      (Feedback.get_satisfaction_rating (recog u) ctx choice).1 =
        .ok "dissatisfied") ∧
    (u ≠ "" →
      pyIn "dissatisfied" (pyLower u) = false →
      pyIn "unhappy" (pyLower u) = false →
      pyIn "neutral" (pyLower u) = false →
      pyIn "okay" (pyLower u) = false →
      pyIn "satisfied" (pyLower u) = false →
      pyIn "happy" (pyLower u) = false →
      (Feedback.get_satisfaction_rating (recog u) ctx choice).1 =
        .ok "neutral") ∧
    ((Feedback.get_satisfaction_rating emptyStream ctx c1).1 =
      (Feedback.get_satisfaction_rating emptyStream ctx c2).1 ∧
      ∃ v, (Feedback.get_satisfaction_rating emptyStream ctx c1).1 =
        .ok v ∧ v ∈ ["very_dissatisfied", "dissatisfied", "neutral",
          "satisfied", "very_satisfied"]) := by
  refine ⟨?_, ?_, ?_, ?_, ?_⟩
  · intro hvh h1 h2 h3 h4 h5 h6
    have hune : u ≠ "" := by
      intro he
      subst he
      exact absurd hvh (by decide)
    have hhappy : pyIn "happy" (pyLower u) = true := pyIn_trans (by decide) hvh
    have hvery : pyIn "very" (pyLower u) = true := pyIn_trans (by decide) hvh
    rw [Feedback.get_satisfaction_rating_recog ctx choice u hune]
    unfold Feedback.satisfactionOf
    simp [hune, h1, h2, h3, h4, h5, h6, hhappy, hvery]
  · intro hun hv
    have hune : u ≠ "" := by
      intro he
      subst he
      exact absurd hun (by decide)
    have h1 : pyIn "very dissatisfied" (pyLower u) = false := by
      cases hcase : pyIn "very dissatisfied" (pyLower u) with
      | false => rfl
      | true =>
        exact absurd (@pyIn_trans "very" "very dissatisfied" (pyLower u)
          (by decide) hcase) (by simp [hv])
    have h2 : pyIn "very unhappy" (pyLower u) = false := by
      cases hcase : pyIn "very unhappy" (pyLower u) with
      | false => rfl
      | true =>
        exact absurd (@pyIn_trans "very" "very unhappy" (pyLower u)
          (by decide) hcase) (by simp [hv])
    rw [Feedback.get_satisfaction_rating_recog ctx choice u hune]
    unfold Feedback.satisfactionOf
    simp [hune, h1, h2, hun]
  · intro hune h3 h4 h5 h6 h7 h8
    have h1 : pyIn "very dissatisfied" (pyLower u) = false := by
      cases hcase : pyIn "very dissatisfied" (pyLower u) with
      | false => rfl
      | true =>
        exact absurd (@pyIn_trans "dissatisfied" "very dissatisfied"
          (pyLower u) (by decide) hcase) (by simp [h3])
    have h2 : pyIn "very unhappy" (pyLower u) = false := by
      cases hcase : pyIn "very unhappy" (pyLower u) with
      | false => rfl
      | true =>
        exact absurd (@pyIn_trans "unhappy" "very unhappy" (pyLower u)
          (by decide) hcase) (by simp [h4])
    have h9 : pyIn "very satisfied" (pyLower u) = false := by
      cases hcase : pyIn "very satisfied" (pyLower u) with
      | false => rfl
      | true =>
        exact absurd (@pyIn_trans "satisfied" "very satisfied" (pyLower u)
          (by decide) hcase) (by simp [h7])
    have h10 : pyIn "very happy" (pyLower u) = false := by
      cases hcase : pyIn "very happy" (pyLower u) with
      | false => rfl
      | true =>
        exact absurd (@pyIn_trans "happy" "very happy" (pyLower u)
          (by decide) hcase) (by simp [h8])
    rw [Feedback.get_satisfaction_rating_recog ctx choice u hune]
    unfold Feedback.satisfactionOf
    simp [hune, h1, h2, h3, h4, h5, h6, h7, h8, h9, h10]
  · rw [Feedback.get_satisfaction_rating_noaccept ctx c1 _ noAccept_empty,
      Feedback.get_satisfaction_rating_noaccept ctx c2 _ noAccept_empty]
    obtain ⟨hne, -⟩ := fbSim_props _ (Feedback.simulatedFor_mem ctx)
    rw [Feedback.satisfactionOf_truthy _ hne c1 c2]
  · rw [Feedback.get_satisfaction_rating_noaccept ctx c1 _ noAccept_empty]
    exact ⟨_, rfl, Feedback.satisfactionOf_mem _ c1⟩

/-- Witness for C7 amended at concrete utterances for each branch. -/
theorem C7_satisfaction_amended_witness :
    (Feedback.get_satisfaction_rating (recog "very happy") "x" 0).1 =
      .ok "very_satisfied" ∧
    (Feedback.get_satisfaction_rating (recog "unhappy") "x" 0).1 =
      .ok "dissatisfied" ∧
    (Feedback.get_satisfaction_rating (recog "maybe") "x" 0).1 =
      .ok "neutral" ∧
    (Feedback.get_satisfaction_rating emptyStream "x" 0).1 =
      (Feedback.get_satisfaction_rating emptyStream "x" 1).1 :=
  ⟨(C7_satisfaction_amended "x" "very happy" 0 0 1).1 (by decide) (by decide)
    (by decide) (by decide) (by decide) (by decide) (by decide),
   (C7_satisfaction_amended "x" "unhappy" 0 0 1).2.1 (by decide) (by decide),
   (C7_satisfaction_amended "x" "maybe" 0 0 1).2.2.1 (by decide) (by decide)
    (by decide) (by decide) (by decide) (by decide) (by decide),
   (C7_satisfaction_amended "x" "x" 0 0 1).2.2.2.1⟩

/-- C8: both save operations refuse to persist a record whose identity
field is falsy (missing or empty), returning a boolean failure and writing
no file; for every record whose identity field is a nonempty name, they
write one file whose name contains the sanitized (lowercased,
spaces-to-underscores) identity string and the timestamp of the save; the
feedback save additionally stamps the written record with the save time. -/
theorem C8_save_identity_guard (p : Assistant.PatientRecord)
    (r : Feedback.FeedbackRecord) (now1 now2 now3 : String) :
    ((p.name = none ∨ p.name = some "") →
      Assistant.save_patient_profile p now1 = (false, none)) ∧
    (∀ n, p.name = some n → n ≠ "" →
      ∃ fn, Assistant.save_patient_profile p now1 = (true, some (fn, p)) ∧
        pyIn (pyReplace (pyLower n) " " "_") fn = true ∧
        pyIn now1 fn = true) ∧
    ((r.patient = none ∨ r.patient = some "") →
      Feedback.save_feedback r now2 now3 = (false, none)) ∧
    (∀ n, r.patient = some n → n ≠ "" →
      ∃ fn w, Feedback.save_feedback r now2 now3 = (true, some (fn, w)) ∧
        w.patient = r.patient ∧ w.timestamp = now2 ∧
        pyIn (pyReplace (pyLower n) " " "_") fn = true ∧
        pyIn now3 fn = true) := by
  refine ⟨?_, ?_, ?_, ?_⟩
  · rintro (h | h) <;> simp [Assistant.save_patient_profile, h]
  · intro n hn hne
    refine ⟨"patient_profiles" ++ "/" ++ pyReplace (pyLower n) " " "_" ++
      "_" ++ now1 ++ ".json", ?_, ?_, ?_⟩
    · simp [Assistant.save_patient_profile, hn, hne]
    · exact pyIn_of_data _ _ ("patient_profiles" ++ "/").data
        (("_" ++ now1 ++ ".json")).data
        (by simp [strData_append, List.append_assoc])
    · exact pyIn_of_data _ _ ("patient_profiles" ++ "/" ++
        pyReplace (pyLower n) " " "_" ++ "_").data (".json").data
        (by simp [strData_append, List.append_assoc])
  · rintro (h | h) <;> simp [Feedback.save_feedback, h]
  · intro n hn hne
    refine ⟨"patient_feedback" ++ "/" ++ pyReplace (pyLower n) " " "_" ++
      "_feedback_" ++ now3 ++ ".json", ⟨r.patient, now2⟩, ?_, rfl, rfl,
      ?_, ?_⟩
    · simp [Feedback.save_feedback, hn, hne]
    · exact pyIn_of_data _ _ ("patient_feedback" ++ "/").data
        (("_feedback_" ++ now3 ++ ".json")).data
        (by simp [strData_append, List.append_assoc])
    · exact pyIn_of_data _ _ ("patient_feedback" ++ "/" ++
        pyReplace (pyLower n) " " "_" ++ "_feedback_").data (".json").data
        (by simp [strData_append, List.append_assoc])

/-- Witness for C8 at concrete records. -/
theorem C8_save_identity_guard_witness :
    (Assistant.save_patient_profile ⟨none, none⟩ "20250101_120000" =
      (false, none)) ∧
    (∃ fn, Assistant.save_patient_profile ⟨some "John Smith", none⟩
        "20250101_120000" = (true, some (fn, ⟨some "John Smith", none⟩)) ∧
      pyIn (pyReplace (pyLower "John Smith") " " "_") fn = true ∧
      pyIn "20250101_120000" fn = true) ∧
    (Feedback.save_feedback ⟨none, ""⟩ "2025-01-01 12:00:00"
      "20250101_120000" = (false, none)) ∧
    (∃ fn w, Feedback.save_feedback ⟨some "Bon Smith", ""⟩
        "2025-01-01 12:00:00" "20250101_120000" = (true, some (fn, w)) ∧
      w.patient = some "Bon Smith" ∧ w.timestamp = "2025-01-01 12:00:00" ∧
      pyIn (pyReplace (pyLower "Bon Smith") " " "_") fn = true ∧
      pyIn "20250101_120000" fn = true) :=
  ⟨(C8_save_identity_guard ⟨none, none⟩ ⟨none, ""⟩ "20250101_120000"
      "2025-01-01 12:00:00" "20250101_120000").1 (Or.inl rfl),
   (C8_save_identity_guard ⟨some "John Smith", none⟩ ⟨none, ""⟩
      "20250101_120000" "2025-01-01 12:00:00" "20250101_120000").2.1
      "John Smith" rfl (by decide),
   (C8_save_identity_guard ⟨none, none⟩ ⟨none, ""⟩ "20250101_120000"
      "2025-01-01 12:00:00" "20250101_120000").2.2.1 (Or.inl rfl),
   (C8_save_identity_guard ⟨none, none⟩ ⟨some "Bon Smith", ""⟩
      "20250101_120000" "2025-01-01 12:00:00" "20250101_120000").2.2.2
      "Bon Smith" rfl (by decide)⟩

/-- C9 code-bug evidence: `conclude_assessment` recomputes the filename
timestamp inside each `save_patient_profile` call; whenever the
LLM-generated summary takes the run across a clock second, the two saves
write two distinct filenames — two files for one completed run — although
the source comment above the second call says it updates the saved file,
and the claim says the second save reuses the first filename. -/
theorem C9_two_files_written :
    Assistant.conclude_assessment ⟨some "John Smith", none⟩
        "Patient summary" "20250101_120000" "20250101_120002" =
      [("patient_profiles/john_smith_20250101_120000.json",
        ⟨some "John Smith", none⟩),
       ("patient_profiles/john_smith_20250101_120002.json",
        ⟨some "John Smith", some "Patient summary"⟩)] ∧
    ("patient_profiles/john_smith_20250101_120000.json" ≠
      "patient_profiles/john_smith_20250101_120002.json") := by
  exact ⟨by decide, by decide⟩

/-- C10: in `get_numeric_rating`, the containment check for high precedes
the one for very high, so a coarse reply recognized from the coarse
vocabulary whose lowercase form contains very high takes the high branch
and yields max - (max - min) // 4 — the branch returning max is unreachable
— while very low is checked before low and does return min; and whenever
the range spans at least 4, the value returned for very high differs from
max. -/
theorem C10_very_high_unreachable (minv maxv rnd : ℤ) (ctx : String)
    (r : String) (hr : r ∈ Feedback.rangeVocabulary) :
    (pyIn "very high" (pyLower r) = true →
      (Feedback.get_numeric_rating minv maxv (recog "hello") (recog r) ctx
        rnd).1 = .ok (maxv - (maxv - minv).fdiv 4)) ∧
    (pyIn "very low" (pyLower r) = true →
      (Feedback.get_numeric_rating minv maxv (recog "hello") (recog r) ctx
        rnd).1 = .ok minv) ∧
    (4 ≤ maxv - minv → maxv - (maxv - minv).fdiv 4 ≠ maxv) := by
  have hnp : Feedback.numericParse minv maxv "hello" = none := by
    simp [Feedback.numericParse,
      show pyIsdigit "hello" = false from by decide]
  have heval : ∀ rr : String, rr ≠ "" →
      (Feedback.get_numeric_rating minv maxv (recog "hello") (recog rr) ctx
        rnd).1 = .ok (Feedback.numericCoarse minv maxv rr rnd) := by
    intro rr hrr
    rw [Feedback.get_numeric_rating_recog_coarse minv maxv rnd ctx "hello"
      rr (by decide) hrr hnp]
  refine ⟨?_, ?_, ?_⟩
  · intro hvh
    fin_cases hr
    · exact absurd hvh (by decide)
    · exact absurd hvh (by decide)
    · exact absurd hvh (by decide)
    · exact absurd hvh (by decide)
    · rw [heval "very high" (by decide), numericCoarse_eval_veryhigh]
  · intro hvl
    fin_cases hr
    · exact absurd hvl (by decide)
    · exact absurd hvl (by decide)
    · exact absurd hvl (by decide)
    · rw [heval "very low" (by decide), numericCoarse_eval_verylow]
    · exact absurd hvl (by decide)
  · intro h4 he
    have h1 := fdiv_ge_one_of_le (maxv - minv) h4
    linarith

/-- Witness for C10 at the default 1 to 10 bounds. -/
theorem C10_very_high_unreachable_witness :
    (Feedback.get_numeric_rating 1 10 (recog "hello") (recog "very high")
      "x" 5).1 = .ok (10 - ((10 : ℤ) - 1).fdiv 4) ∧
    (Feedback.get_numeric_rating 1 10 (recog "hello") (recog "very low")
      "x" 5).1 = .ok 1 ∧
    (10 : ℤ) - ((10 : ℤ) - 1).fdiv 4 ≠ 10 :=
  ⟨(C10_very_high_unreachable 1 10 5 "x" "very high" (by decide)).1
     (by decide),
   (C10_very_high_unreachable 1 10 5 "x" "very low" (by decide)).2.1
     (by decide),
   (C10_very_high_unreachable 1 10 5 "x" "very high" (by decide)).2.2
     (by decide)⟩
